import Mathlib

/-!
Shallow embedding of `src/app.py` (OpportunityCanvasDataApp).

The script is one linear procedure `main`:
read a CSV into a dataframe, clip and round the three constraint columns,
filter rows by a slider range on the Total Impact column, append a
BubbleSize helper column, build per-row hover strings, and hand the arrays
to a 3D scatter renderer.

Numeric cell values are modelled as rationals; the pandas comparisons,
`clip`, `round` (numpy half-to-even) and Python `int()` truncation are
embedded explicitly below.
-/

set_option autoImplicit false

namespace OpportunityCanvas

/-- One CSV record, with the columns of `OpportunityCanvas.csv` in order:
Problem, Tech, Cost, Time, Regulations, Social Acceptance, Sum Constraints,
IQ, QL, Total Impact, Notes (see `src/app.py` lines 30-40).  Text columns
are strings, numeric columns are rationals. -/
structure Row where
  problem : String
  tech : String
  cost : ℚ
  time : ℚ
  regulations : ℚ
  socialAcceptance : String
  sumConstraints : ℚ
  iq : ℚ
  ql : ℚ
  totalImpact : ℚ
  notes : String
deriving DecidableEq, Repr

/-- The CSV header, in original column order (`src/app.py` lines 26-28). -/
def csvCols : List String :=
  ["Problem", "Tech", "Cost", "Time", "Regulations", "Social Acceptance",
   "Sum Constraints", "IQ", "QL", "Total Impact", "Notes"]

/-- pandas `Series.clip(lo, hi)` on one cell: values below `lo` are raised
to `lo`, values above `hi` are lowered to `hi`. -/
def clip (lo hi x : ℚ) : ℚ := max lo (min x hi)

/-- numpy rounding used by pandas `Series.round()`: round half to even. -/
def npRound (x : ℚ) : ℤ :=
  if x - (⌊x⌋ : ℚ) < 1/2 then ⌊x⌋
  else if 1/2 < x - (⌊x⌋ : ℚ) then ⌊x⌋ + 1
  else if ⌊x⌋ % 2 = 0 then ⌊x⌋ else ⌊x⌋ + 1

/-- One cell of `df[c].clip(1, 10).round().astype(int)`
(`src/app.py` line 49). -/
def normCell (x : ℚ) : ℚ := ((npRound (clip 1 10 x) : ℤ) : ℚ)

/-- The loop of `src/app.py` lines 48-49 applied to one row: clip and round
the three constraint columns Cost, Time, Regulations; all other columns are
untouched. -/
def normalizeRow (r : Row) : Row :=
  { r with
    cost := normCell r.cost
    time := normCell r.time
    regulations := normCell r.regulations }

/-- The constraint-normalization step over the whole table. -/
def normalizeTable (df : List Row) : List Row := df.map normalizeRow

/-- The row predicate of `src/app.py` line 65:
`(df["Total Impact"] >= min_val) & (df["Total Impact"] <= max_val)` where
`min_val`, `max_val` are the integers returned by the slider. -/
def inImpactRange (mn mx : ℤ) (r : Row) : Bool :=
  decide ((mn : ℚ) ≤ r.totalImpact) && decide (r.totalImpact ≤ (mx : ℚ))

/-- `df_filtered = df[(df[ti] >= min_val) & (df[ti] <= max_val)]`
(`src/app.py` line 65): boolean-mask row selection. -/
def filterTable (mn mx : ℤ) (df : List Row) : List Row :=
  df.filter (inImpactRange mn mx)

/-- Python `int()` on a rational: truncation toward zero, as applied to the
observed min and max in `src/app.py` lines 54-55. -/
def pyInt (x : ℚ) : ℤ := if 0 ≤ x then ⌊x⌋ else ⌈x⌉

/-- Minimum of a list of rationals (`Series.min()` on a nonempty column). -/
def qmin : List ℚ → Option ℚ
  | [] => none
  | x :: xs =>
    some (match qmin xs with
      | some m => min x m
      | none => x)

/-- Maximum of a list of rationals (`Series.max()` on a nonempty column). -/
def qmax : List ℚ → Option ℚ
  | [] => none
  | x :: xs =>
    some (match qmax xs with
      | some m => max x m
      | none => x)

/-- `src/app.py` lines 54-62: the slider bounds and default value are
`impact_min = int(df[ti].min())` and `impact_max = int(df[ti].max())`.
Returns `none` on an empty table (where pandas would yield NaN and `int()`
would fail). -/
def defaultRange (df : List Row) : Option (ℤ × ℤ) :=
  match qmin (df.map (fun r => r.totalImpact)),
        qmax (df.map (fun r => r.totalImpact)) with
  | some a, some b => some (pyInt a, pyInt b)
  | _, _ => none

/-- Display string of a numeric cell, as the f-strings of
`src/app.py` lines 85-89 render it: integer-valued cells print without a
fractional part.  The exact decimal formatting of non-integral floats is
external presentation; it is kept abstract as the rational literal, and the
theorems below relate hover lines to this function rather than fixing a
float syntax. -/
def showVal (v : ℚ) : String :=
  if v.den = 1 then toString v.num else toString v

/-- The columns of `df_filtered` paired with one row of rendered cell
values, in dataframe order at `src/app.py` line 78: the CSV columns
followed by the `BubbleSize` column appended at line 71 (a copy of the
Total Impact column). -/
def filteredCells (r : Row) : List (String × String) :=
  [("Problem", r.problem), ("Tech", r.tech), ("Cost", showVal r.cost),
   ("Time", showVal r.time), ("Regulations", showVal r.regulations),
   ("Social Acceptance", r.socialAcceptance),
   ("Sum Constraints", showVal r.sumConstraints),
   ("IQ", showVal r.iq), ("QL", showVal r.ql),
   ("Total Impact", showVal r.totalImpact), ("Notes", r.notes),
   ("BubbleSize", showVal r.totalImpact)]

/-- The CSV columns only, paired with rendered cell values of one row. -/
def csvCells (r : Row) : List (String × String) :=
  [("Problem", r.problem), ("Tech", r.tech), ("Cost", showVal r.cost),
   ("Time", showVal r.time), ("Regulations", showVal r.regulations),
   ("Social Acceptance", r.socialAcceptance),
   ("Sum Constraints", showVal r.sumConstraints),
   ("IQ", showVal r.iq), ("QL", showVal r.ql),
   ("Total Impact", showVal r.totalImpact), ("Notes", r.notes)]

/-- One line of the hover text (`src/app.py` lines 84-89): rename the IQ
and QL field names for display, every other column name is literal. -/
def hoverLine (c v : String) : String :=
  if c = "IQ" then "Impact Quantity: " ++ v
  else if c = "QL" then "Impact Quality: " ++ v
  else c ++ ": " ++ v

/-- The `lines` list built for one retained row
(`src/app.py` lines 81-89): one hover line per column of `df_filtered`. -/
def hoverLines (r : Row) : List String :=
  (filteredCells r).map (fun p => hoverLine p.1 p.2)

/-- `"<br>".join(lines)` (`src/app.py` line 90). -/
def hoverText (r : Row) : String :=
  String.intercalate "<br>" (hoverLines r)

/-- The hover lines restricted to the CSV columns (no BubbleSize). -/
def csvLines (r : Row) : List String :=
  (csvCells r).map (fun p => hoverLine p.1 p.2)

/-- What the spec SAYS the hover label is (spec section 4.1, Describe):
every CSV column name and value in original CSV order with the IQ and QL
renames - without the BubbleSize helper column.  Stated for comparison
with `hoverText`, which is embedded from the code. -/
def hoverTextSpecCSVOnly (r : Row) : String :=
  String.intercalate "<br>" (csvLines r)

/-- Marker configuration of the `go.Scatter3d` call
(`src/app.py` lines 104-111). -/
structure Marker where
  size : List ℚ
  color : List ℚ
  colorscale : String
  showscale : Bool
  colorbarTitle : String
deriving DecidableEq, Repr

/-- The single `go.Scatter3d` trace (`src/app.py` lines 97-112). -/
structure Trace3d where
  x : List ℚ
  y : List ℚ
  z : List ℚ
  mode : String
  text : List String
  hoverinfo : String
  marker : Marker
deriving DecidableEq, Repr

/-- One axis of the 3D scene (`src/app.py` lines 121-123):
`dict(range=[1, 10], dtick=1, title=...)`. -/
structure Axis3d where
  range : List ℤ
  dtick : ℤ
  title : String
deriving DecidableEq, Repr

/-- The `scene` layout (`src/app.py` lines 120-124). -/
structure Scene3d where
  xaxis : Axis3d
  yaxis : Axis3d
  zaxis : Axis3d
deriving DecidableEq, Repr

/-- The figure handed to the renderer. -/
structure Figure where
  data : List Trace3d
  scene : Scene3d
  titleText : String
deriving DecidableEq, Repr

/-- `go.Figure(...)` plus `fig.update_layout(...)`
(`src/app.py` lines 95-133), applied to the filtered table: positions from
the Cost, Time and Regulations columns, marker size from the BubbleSize
column (the copy of Total Impact made at line 71), marker color from the
Sum Constraints column, per-point text from the hover strings, and the
fixed axis configuration. -/
def makeFigure (dff : List Row) : Figure :=
  { data := [{
      x := dff.map (fun r => r.cost)
      y := dff.map (fun r => r.time)
      z := dff.map (fun r => r.regulations)
      mode := "markers"
      text := dff.map hoverText
      hoverinfo := "text"
      marker := {
        size := dff.map (fun r => r.totalImpact)
        color := dff.map (fun r => r.sumConstraints)
        colorscale := "Reds"
        showscale := true
        colorbarTitle := "Sum of Constraints" } }]
    scene := {
      xaxis := { range := [1, 10], dtick := 1, title := "Cost" }
      yaxis := { range := [1, 10], dtick := 1, title := "Time" }
      zaxis := { range := [1, 10], dtick := 1, title := "Regulations" } }
    titleText :=
      "Opportunity Canvas - Findings 3D Plot (Bubble Size = Total Impact)" }

/-- The names that `main` ever binds (assignment targets, loop variables
and the exception name), transcribed from `src/app.py` lines 5-138.  The
module level additionally binds the imports `st`, `pd`, `go` and `main`. -/
def mainAssignedNames : List String :=
  ["df", "e", "problem_col", "tech_col", "cost_col", "time_col", "regs_col",
   "social_col", "sum_constraints_col", "iq_col", "ql_col",
   "total_impact_col", "notes_col", "constraint_cols", "c", "impact_min",
   "impact_max", "min_val", "max_val", "df_filtered", "original_cols",
   "hover_texts", "_", "row", "lines", "val", "fig"]

/-- The variables interpolated by the error-path f-string
`"Error reading CSV from ..."` at `src/app.py` line 14. -/
def loadErrorMessageVars : List String := ["csv_path", "e"]

/-- A sample row with integral numeric cells, used as concrete input. -/
def sampleRow : Row :=
  { problem := "Grid storage"
    tech := "Batteries"
    cost := 3
    time := 4
    regulations := 5
    socialAcceptance := "High"
    sumConstraints := 12
    iq := 6
    ql := 7
    totalImpact := 8
    notes := "ok" }

/-- A one-row table whose Total Impact is the non-integral value 15/2. -/
def fracRow : Row :=
  { problem := "Pilot"
    tech := "Sensors"
    cost := 2
    time := 2
    regulations := 2
    socialAcceptance := "Med"
    sumConstraints := 6
    iq := 3
    ql := 4
    totalImpact := mkRat 15 2
    notes := "frac" }

/-- The row of the normalization example in the spec (section 8):
Cost 12, Time 0, Regulations 5, Total Impact 7. -/
def specExampleRow : Row :=
  { problem := "Ex"
    tech := "Ex"
    cost := 12
    time := 0
    regulations := 5
    socialAcceptance := "Ex"
    sumConstraints := 17
    iq := 3
    ql := 4
    totalImpact := 7
    notes := "Ex" }

/-! Helper lemmas about the embedded operations. -/

theorem le_clip (x : ℚ) : (1:ℚ) ≤ clip 1 10 x := le_max_left 1 _

theorem clip_le (x : ℚ) : clip 1 10 x ≤ 10 :=
  max_le (by norm_num) (min_le_right x 10)

theorem npRound_cases (x : ℚ) :
    npRound x = ⌊x⌋ ∨ (npRound x = ⌊x⌋ + 1 ∧ 1/2 ≤ x - (⌊x⌋ : ℚ)) := by
  unfold npRound
  split
  · exact Or.inl rfl
  · rename_i h1
    have h1' : 1/2 ≤ x - (⌊x⌋ : ℚ) := not_lt.mp h1
    split
    · exact Or.inr ⟨rfl, h1'⟩
    · split
      · exact Or.inl rfl
      · exact Or.inr ⟨rfl, h1'⟩

theorem le_npRound (x : ℚ) (h : (1:ℚ) ≤ x) : 1 ≤ npRound x := by
  have hfl : 1 ≤ ⌊x⌋ := by
    rw [Int.le_floor]
    exact_mod_cast h
  rcases npRound_cases x with h1 | ⟨h1, _⟩
  · rw [h1]; exact hfl
  · rw [h1]; omega

theorem npRound_le (x : ℚ) (h : x ≤ 10) : npRound x ≤ 10 := by
  rcases npRound_cases x with h1 | ⟨h1, h2⟩
  · rw [h1]
    have h10 : ⌊x⌋ ≤ ⌊(10:ℚ)⌋ := Int.floor_le_floor h
    simpa using h10
  · rw [h1]
    have hfl : (⌊x⌋ : ℚ) ≤ x := Int.floor_le x
    have hlt : (⌊x⌋ : ℚ) < 10 := by linarith
    have : ⌊x⌋ < (10:ℤ) := by exact_mod_cast hlt
    omega

theorem normCell_spec (x : ℚ) :
    (1:ℚ) ≤ normCell x ∧ normCell x ≤ 10 ∧ (normCell x).den = 1 := by
  unfold normCell
  refine ⟨?_, ?_, Rat.den_intCast _⟩
  · exact_mod_cast le_npRound _ (le_clip x)
  · exact_mod_cast npRound_le _ (clip_le x)

theorem pyInt_eq_num {a : ℚ} (h : a.den = 1) : pyInt a = a.num := by
  have ha : ((a.num : ℤ) : ℚ) = a := Rat.coe_int_num_of_den_eq_one h
  unfold pyInt
  split
  · rw [← ha, Int.floor_intCast]
    simp
  · rw [← ha, Int.ceil_intCast]
    simp

theorem qmin_spec : ∀ {xs : List ℚ} {a : ℚ}, qmin xs = some a →
    a ∈ xs ∧ ∀ x ∈ xs, a ≤ x := by
  intro xs
  induction xs with
  | nil => intro a h; simp [qmin] at h
  | cons x t ih =>
    intro a h
    rw [qmin] at h
    cases ht : qmin t with
    | none =>
      cases t with
      | nil =>
        rw [ht] at h
        injection h with h
        subst h
        exact ⟨List.mem_singleton_self x, by simp⟩
      | cons y u => rw [qmin] at ht; cases ht
    | some m =>
      rw [ht] at h
      injection h with h
      have hma : min x m = a := h
      obtain ⟨hm, hmin⟩ := ih ht
      constructor
      · rw [← hma]
        rcases min_choice x m with hc | hc
        · rw [hc]; exact List.mem_cons_self x t
        · rw [hc]; exact List.mem_cons_of_mem x hm
      · intro z hz
        rw [← hma]
        rcases List.mem_cons.mp hz with hz | hz
        · rw [hz]; exact min_le_left x m
        · exact le_trans (min_le_right x m) (hmin z hz)

theorem qmax_spec : ∀ {xs : List ℚ} {b : ℚ}, qmax xs = some b →
    b ∈ xs ∧ ∀ x ∈ xs, x ≤ b := by
  intro xs
  induction xs with
  | nil => intro b h; simp [qmax] at h
  | cons x t ih =>
    intro b h
    rw [qmax] at h
    cases ht : qmax t with
    | none =>
      cases t with
      | nil =>
        rw [ht] at h
        injection h with h
        subst h
        exact ⟨List.mem_singleton_self x, by simp⟩
      | cons y u => rw [qmax] at ht; cases ht
    | some m =>
      rw [ht] at h
      injection h with h
      have hmb : max x m = b := h
      obtain ⟨hm, hmax⟩ := ih ht
      constructor
      · rw [← hmb]
        rcases max_choice x m with hc | hc
        · rw [hc]; exact List.mem_cons_self x t
        · rw [hc]; exact List.mem_cons_of_mem x hm
      · intro z hz
        rw [← hmb]
        rcases List.mem_cons.mp hz with hz | hz
        · rw [hz]; exact le_max_left x m
        · exact le_trans (hmax z hz) (le_max_right x m)

theorem inImpactRange_iff (mn mx : ℤ) (r : Row) :
    inImpactRange mn mx r = true ↔
      (mn : ℚ) ≤ r.totalImpact ∧ r.totalImpact ≤ (mx : ℚ) := by
  simp [inImpactRange]

/-! The claims. -/

/-- Claim C1: for every row of the loaded table, after the Normalize step
each of the three constraint columns Cost, Time and Regulations holds an
integral value lying in the inclusive range [1,10]. -/
theorem claim_C1_normalized_constraints_integral_in_range
    (df : List Row) (r : Row) (h : r ∈ normalizeTable df) :
    ((1:ℚ) ≤ r.cost ∧ r.cost ≤ 10 ∧ r.cost.den = 1) ∧
    ((1:ℚ) ≤ r.time ∧ r.time ≤ 10 ∧ r.time.den = 1) ∧
    ((1:ℚ) ≤ r.regulations ∧ r.regulations ≤ 10 ∧ r.regulations.den = 1) := by
  obtain ⟨r0, _, rfl⟩ := List.mem_map.mp h
  exact ⟨normCell_spec r0.cost, normCell_spec r0.time,
    normCell_spec r0.regulations⟩

/-- Witness for C1 at a concrete one-row table. -/
theorem claim_C1_witness :
    ((1:ℚ) ≤ (normalizeRow sampleRow).cost ∧
      (normalizeRow sampleRow).cost ≤ 10 ∧
      (normalizeRow sampleRow).cost.den = 1) ∧
    ((1:ℚ) ≤ (normalizeRow sampleRow).time ∧
      (normalizeRow sampleRow).time ≤ 10 ∧
      (normalizeRow sampleRow).time.den = 1) ∧
    ((1:ℚ) ≤ (normalizeRow sampleRow).regulations ∧
      (normalizeRow sampleRow).regulations ≤ 10 ∧
      (normalizeRow sampleRow).regulations.den = 1) :=
  claim_C1_normalized_constraints_integral_in_range [sampleRow]
    (normalizeRow sampleRow) (by simp [normalizeTable])

/-- Claim C2: the Filter step retains exactly those rows whose Total
Impact lies in the inclusive range, and a range excluding every Total
Impact value in the table yields the empty row set. -/
theorem claim_C2_filter_retains_exactly_range (df : List Row) (mn mx : ℤ) :
    (∀ r : Row, r ∈ filterTable mn mx df ↔
      r ∈ df ∧ (mn : ℚ) ≤ r.totalImpact ∧ r.totalImpact ≤ (mx : ℚ)) ∧
    ((∀ r ∈ df, ¬ ((mn : ℚ) ≤ r.totalImpact ∧ r.totalImpact ≤ (mx : ℚ))) →
      filterTable mn mx df = []) := by
  constructor
  · intro r
    rw [filterTable, List.mem_filter, inImpactRange_iff]
  · intro hno
    show List.filter (inImpactRange mn mx) df = []
    rw [List.filter_eq_nil_iff]
    intro r hr
    rw [inImpactRange_iff]
    exact hno r hr

/-- Witness for C2: the range [9,9] excludes the sample Total Impact 8,
so the filter returns the empty row set. -/
theorem claim_C2_witness : filterTable 9 9 [sampleRow] = [] :=
  (claim_C2_filter_retains_exactly_range [sampleRow] 9 9).2 (by decide)

/-- Counterexample to claim C3 as stated: with a single row of Total
Impact 15/2, the observed maximum is 15/2 but the default slider range is
the truncation (7,7), and filtering by it drops the row, so the default
range is not the observed min and max and filtering by it does not return
the full row set. -/
theorem claim_C3_counterexample :
    qmax ([fracRow].map (fun r => r.totalImpact)) = some (mkRat 15 2) ∧
    defaultRange [fracRow] = some (7, 7) ∧
    filterTable 7 7 [fracRow] = [] ∧
    ([fracRow] : List Row) ≠ [] := by
  have hmk : (mkRat 15 2 : ℚ) = 15/2 := by
    rw [Rat.mkRat_eq_div]
    norm_num
  have hpy : pyInt (mkRat 15 2) = 7 := by
    rw [pyInt, if_pos (by rw [hmk]; norm_num), hmk]
    norm_num
  refine ⟨rfl, ?_, rfl, by simp⟩
  have hdr : defaultRange [fracRow]
      = some (pyInt (mkRat 15 2), pyInt (mkRat 15 2)) := rfl
  rw [hdr, hpy]

/-- Claim C3 (amended): the filter range defaults to the toward-zero
integer truncations of the observed min and max of Total Impact; whenever
every Total Impact value in the table is an integer, these equal the
observed min and max and filtering by them returns the full row set. -/
theorem claim_C3_amended_default_range_full_set
    (df : List Row) (mn mx : ℤ)
    (hint : ∀ r ∈ df, (r.totalImpact).den = 1)
    (hdr : defaultRange df = some (mn, mx)) :
    filterTable mn mx df = df := by
  rcases hqmin : qmin (df.map fun r => r.totalImpact) with _ | a
  · simp [defaultRange, hqmin] at hdr
  · rcases hqmax : qmax (df.map fun r => r.totalImpact) with _ | b
    · simp [defaultRange, hqmin, hqmax] at hdr
    · simp [defaultRange, hqmin, hqmax] at hdr
      obtain ⟨hmn, hmx⟩ := hdr
      obtain ⟨ha_mem, ha_min⟩ := qmin_spec hqmin
      obtain ⟨hb_mem, hb_max⟩ := qmax_spec hqmax
      obtain ⟨ra, hra, hra2⟩ := List.mem_map.mp ha_mem
      have haden : a.den = 1 := hra2 ▸ hint ra hra
      obtain ⟨rb, hrb, hrb2⟩ := List.mem_map.mp hb_mem
      have hbden : b.den = 1 := hrb2 ▸ hint rb hrb
      show List.filter (inImpactRange mn mx) df = df
      rw [List.filter_eq_self]
      intro r hr
      rw [inImpactRange_iff]
      constructor
      · rw [← hmn, pyInt_eq_num haden,
          Rat.coe_int_num_of_den_eq_one haden]
        exact ha_min _ (List.mem_map_of_mem _ hr)
      · rw [← hmx, pyInt_eq_num hbden,
          Rat.coe_int_num_of_den_eq_one hbden]
        exact hb_max _ (List.mem_map_of_mem _ hr)

/-- Witness for the amended C3 at a one-row table with integral Total
Impact 8: the default range is (8,8) and filtering by it keeps the row. -/
theorem claim_C3_witness : filterTable 8 8 [sampleRow] = [sampleRow] :=
  claim_C3_amended_default_range_full_set [sampleRow] 8 8 (by decide)
    (by
      have h8 : pyInt (8:ℚ) = 8 := by
        rw [pyInt, if_pos (by norm_num)]
        norm_num
      have hdr : defaultRange [sampleRow]
          = some (pyInt (8:ℚ), pyInt (8:ℚ)) := rfl
      rw [hdr, h8])

/-- Counterexample to claim C4 as stated: the hover label of a retained
row is not the label built from the CSV columns alone, because the
BubbleSize helper column appended at `src/app.py` line 71 is also listed
(see C10). -/
theorem claim_C4_counterexample :
    hoverText sampleRow ≠ hoverTextSpecCSVOnly sampleRow := by
  set_option maxRecDepth 4096 in decide

/-- Claim C4 (amended): for every retained row the hover label lists every
CSV column name and value in original CSV order, rendering IQ as Impact
Quantity and QL as Impact Quality and every other column name literally,
followed by one extra final line for the appended BubbleSize column. -/
theorem claim_C4_amended_hover_lines_csv_order_renames (r : Row) :
    csvLines r =
      ["Problem: " ++ r.problem,
       "Tech: " ++ r.tech,
       "Cost: " ++ showVal r.cost,
       "Time: " ++ showVal r.time,
       "Regulations: " ++ showVal r.regulations,
       "Social Acceptance: " ++ r.socialAcceptance,
       "Sum Constraints: " ++ showVal r.sumConstraints,
       "Impact Quantity: " ++ showVal r.iq,
       "Impact Quality: " ++ showVal r.ql,
       "Total Impact: " ++ showVal r.totalImpact,
       "Notes: " ++ r.notes] ∧
    hoverText r = String.intercalate "<br>"
      (csvLines r ++ ["BubbleSize: " ++ showVal r.totalImpact]) := by
  exact ⟨rfl, rfl⟩

/-- Claim C5: the spec requires a reported error naming the path and the
cause, and a halt.  The code of `src/app.py` lines 12-15 is a slip: the
`except` clause has no matching `try` statement (the file cannot even be
parsed), and the error f-string interpolates the name `csv_path`, which is
bound nowhere in the program, so even the intended handler would raise a
NameError instead of reporting the path. -/
theorem claim_C5_error_message_references_unbound_name :
    "csv_path" ∈ loadErrorMessageVars ∧ "csv_path" ∉ mainAssignedNames := by
  decide

/-- Claim C6: the dataset handed to the renderer maps, for every retained
row, position to (Cost, Time, Regulations), marker size to Total Impact
(via the BubbleSize copy), marker color to Sum Constraints on the fixed
Reds color scale, per-point text to the hover label, and configures the
three axes with range [1,10] and tick spacing 1. -/
theorem claim_C6_render_dataset (dff : List Row) (i : ℕ)
    (h : i < dff.length) :
    ∃ t : Trace3d, (makeFigure dff).data = [t] ∧
      t.x[i]? = some (dff[i].cost) ∧
      t.y[i]? = some (dff[i].time) ∧
      t.z[i]? = some (dff[i].regulations) ∧
      t.marker.size[i]? = some (dff[i].totalImpact) ∧
      t.marker.color[i]? = some (dff[i].sumConstraints) ∧
      t.marker.colorscale = "Reds" ∧
      t.text[i]? = some (hoverText (dff[i])) ∧
      (makeFigure dff).scene.xaxis = ⟨[1, 10], 1, "Cost"⟩ ∧
      (makeFigure dff).scene.yaxis = ⟨[1, 10], 1, "Time"⟩ ∧
      (makeFigure dff).scene.zaxis = ⟨[1, 10], 1, "Regulations"⟩ := by
  refine ⟨_, rfl, ?_, ?_, ?_, ?_, ?_, rfl, ?_, rfl, rfl, rfl⟩ <;>
    simp [makeFigure, List.getElem?_eq_getElem h]

/-- Witness for C6 at a one-row table. -/
theorem claim_C6_witness :
    ∃ t : Trace3d, (makeFigure [sampleRow]).data = [t] ∧
      t.x[0]? = some sampleRow.cost ∧
      t.y[0]? = some sampleRow.time ∧
      t.z[0]? = some sampleRow.regulations ∧
      t.marker.size[0]? = some sampleRow.totalImpact ∧
      t.marker.color[0]? = some sampleRow.sumConstraints ∧
      t.marker.colorscale = "Reds" ∧
      t.text[0]? = some (hoverText sampleRow) ∧
      (makeFigure [sampleRow]).scene.xaxis = ⟨[1, 10], 1, "Cost"⟩ ∧
      (makeFigure [sampleRow]).scene.yaxis = ⟨[1, 10], 1, "Time"⟩ ∧
      (makeFigure [sampleRow]).scene.zaxis = ⟨[1, 10], 1, "Regulations"⟩ :=
  claim_C6_render_dataset [sampleRow] 0 (by decide)

/-- Claim C7: only the clip/round step changes row values and it touches
only the three constraint columns; every other column is passed through
unchanged and never recomputed, and the Filter step takes rows verbatim
from the underlying table without altering it (a sublist). -/
theorem claim_C7_only_constraints_mutated (r : Row) (df : List Row)
    (mn mx : ℤ) :
    (normalizeRow r).problem = r.problem ∧
    (normalizeRow r).tech = r.tech ∧
    (normalizeRow r).socialAcceptance = r.socialAcceptance ∧
    (normalizeRow r).sumConstraints = r.sumConstraints ∧
    (normalizeRow r).iq = r.iq ∧
    (normalizeRow r).ql = r.ql ∧
    (normalizeRow r).totalImpact = r.totalImpact ∧
    (normalizeRow r).notes = r.notes ∧
    List.Sublist (filterTable mn mx df) df :=
  ⟨rfl, rfl, rfl, rfl, rfl, rfl, rfl, rfl, List.filter_sublist df⟩

/-- Claim C8: normalization of a constraint value first clamps it to
[1,10] and then rounds to the nearest integer; in particular the row with
Cost 12, Time 0, Regulations 5 normalizes to Cost 10, Time 1,
Regulations 5. -/
theorem claim_C8_clip_then_round_example :
    (∀ x : ℚ, normCell x = ((npRound (clip 1 10 x) : ℤ) : ℚ)) ∧
    (normalizeRow specExampleRow).cost = 10 ∧
    (normalizeRow specExampleRow).time = 1 ∧
    (normalizeRow specExampleRow).regulations = 5 := by
  refine ⟨fun x => rfl, ?_, ?_, ?_⟩ <;>
    norm_num [normalizeRow, specExampleRow, normCell, npRound, clip,
      max_def, min_def]

/-- Claim C9: the Filter step is idempotent: filtering twice with the same
range yields the same row set as filtering once. -/
theorem claim_C9_filter_idempotent (df : List Row) (mn mx : ℤ) :
    filterTable mn mx (filterTable mn mx df) = filterTable mn mx df := by
  show List.filter (inImpactRange mn mx) (filterTable mn mx df)
      = filterTable mn mx df
  rw [List.filter_eq_self]
  intro r hr
  exact (List.mem_filter.mp hr).2

/-- Claim C10: because the BubbleSize column (a copy of Total Impact) is
appended to the filtered table before the hover column list is read, the
hover lines are the CSV lines plus one extra final line for BubbleSize,
giving one more line than there are CSV columns, joined by the br
separator. -/
theorem claim_C10_hover_has_bubblesize_line (r : Row) :
    hoverLines r = csvLines r ++ ["BubbleSize: " ++ showVal r.totalImpact] ∧
    (hoverLines r).length = csvCols.length + 1 ∧
    hoverText r = String.intercalate "<br>"
      (csvLines r ++ ["BubbleSize: " ++ showVal r.totalImpact]) := by
  exact ⟨rfl, rfl, rfl⟩

end OpportunityCanvas
